import Mathlib

/-!
# Verification of the OAuth2-Client repository

Shallow embedding of the two `OAuth2Client` class variants of the
repository:

* `src/src/oauth-client.ts` — the variant with a token-exchange step in
  `handleCallback` and a polling-based `waitForCallback`; embedded in the
  `OAuth2Client` namespace.
* `src/unnamed/part_000` — the variant whose `handleCallback` returns the
  authorization code directly (no token exchange) and whose
  `authenticateWithPopup` uses a cross-document message listener together
  with a closed-popup polling interval; embedded in the `MsgClient`
  namespace.

Modelling conventions:
* `sessionStorage` is an explicit association list of string key/value
  pairs threaded through the functions; `getItem` returns `Option String`
  (`none` stands for JavaScript `null`).
* JavaScript truthiness of a `string | undefined | null` value is
  `truthy`: `none` (undefined/null) and `some ""` are falsy.
* Nondeterministic or environment-driven effects are oracle parameters:
  the freshly generated UUID `state`, whether a storage call throws
  (`Option String`, `some msg` = throws an error with message `msg`), and
  the outcome of `fetch` (`FetchOutcome`).
* Thrown `Error` values are `Except.error` carrying the message string,
  with the re-wrapping prefixes of the source's `catch` blocks applied.
* The WHATWG `new URL` constructor and its `searchParams` are modelled by
  `parseURL` / `URLModel`: a structured URL (scheme, authority+path,
  decoded query-parameter list in order).  A string parses iff it
  contains `"://"` with a non-empty scheme before it and a non-empty
  remainder; percent-encoding of the serialized form is not modelled, the
  parameter list itself stands for the URL's query.
-/

deriving instance DecidableEq for Except

/-- JavaScript truthiness of a `string | undefined | null` value:
`undefined`/`null` (`none`) and the empty string are falsy. -/
def truthy : Option String → Bool
  | none => false
  | some s => !(s == "")

/-- The storage key of the CSRF state (`STATE_KEY` in both variants). -/
def STATE_KEY : String := "oauth_state"

/-- The storage key of the token (`TOKEN_KEY` in `src/src/oauth-client.ts`). -/
def TOKEN_KEY : String := "oauth_token"

/-- Model of `sessionStorage`: a tab-scoped string key/value store, modelled as an
association list (first binding of a key wins). -/
structure SessionStorage where
  items : List (String × String)
deriving Repr, DecidableEq

/-- Model of `sessionStorage.getItem(k)`: the stored value, or `none` for `null`. -/
def SessionStorage.getItem (s : SessionStorage) (k : String) : Option String :=
  (s.items.find? (fun p => p.1 == k)).map Prod.snd

/-- Model of `sessionStorage.setItem(k, v)`: overwrites any prior binding of `k`. -/
def SessionStorage.setItem (s : SessionStorage) (k v : String) : SessionStorage :=
  ⟨(k, v) :: s.items.filter (fun p => p.1 != k)⟩

/-- Model of `sessionStorage.removeItem(k)`. -/
def SessionStorage.removeItem (s : SessionStorage) (k : String) : SessionStorage :=
  ⟨s.items.filter (fun p => p.1 != k)⟩

/-- The empty storage (fresh session, nothing stored yet). -/
def SessionStorage.empty : SessionStorage := ⟨[]⟩

/-- Embedding of `OAuthConfig` (`src/unnamed/part_001`, the models file with the
token-exchange fields; `src/src/models/oauth-models.ts` is the same
interface without `tokenEndpoint`/`logoutEndpoint`).  Required string
fields are plain `String`s where the empty string plays the role of a
missing/falsy field, matching the `!config[field]` presence check. -/
structure OAuthConfig where
  clientId : String
  redirectUri : String
  authEndpoint : String
  scope : Option String := none
  tokenEndpoint : String := ""
  logoutEndpoint : Option String := none
deriving Repr, DecidableEq

/-- Dynamic field access `config[field]` for the required-field check. -/
def OAuthConfig.field (c : OAuthConfig) (f : String) : String :=
  if f == "clientId" then c.clientId
  else if f == "redirectUri" then c.redirectUri
  else if f == "authEndpoint" then c.authEndpoint
  else if f == "tokenEndpoint" then c.tokenEndpoint
  else ""

/-- Embedding of `CallbackParams` (`oauth-models`): all four fields optional. -/
structure CallbackParams where
  code : Option String := none
  state : Option String := none
  error : Option String := none
  error_description : Option String := none
deriving Repr, DecidableEq

/-- Structured model of a parsed WHATWG URL: scheme, authority+path
(`rest`, everything between `"://"` and the query), and the decoded query
parameters in order. -/
structure URLModel where
  scheme : String
  rest : String
  params : List (String × String)
deriving Repr, DecidableEq

/-- Break a character list at the first occurrence of the separator
`sep`: `some (pre, post)` with the separator removed, or `none` when
`sep` does not occur. -/
def breakOnSep (sep : List Char) : List Char → Option (List Char × List Char)
  | [] => if sep.isEmpty then some ([], []) else none
  | c :: rest =>
    if sep.isPrefixOf (c :: rest) then some ([], (c :: rest).drop sep.length)
    else
      match breakOnSep sep rest with
      | some (pre, post) => some (c :: pre, post)
      | none => none

/-- Fuelled worker of `splitOnSep` (the fuel bounds the number of
separator occurrences, so the recursion is structural). -/
def splitSepFuel (sep : List Char) : Nat → List Char → List (List Char)
  | 0, l => [l]
  | Nat.succ fuel, l =>
    match breakOnSep sep l with
    | none => [l]
    | some (pre, post) => pre :: splitSepFuel sep fuel post

/-- Split a character list on every occurrence of a (non-empty)
separator, like `String.splitOn`. -/
def splitOnSep (sep l : List Char) : List (List Char) :=
  splitSepFuel sep l.length l

/-- Split a raw query string into key/value pairs (`k=v` separated by
`&`; empty segments dropped; a segment breaks at its first `=`, a
segment without `=` maps to the empty value). -/
def parseQuery (q : List Char) : List (String × String) :=
  (splitOnSep ['&'] q).filterMap (fun kv =>
    if kv.isEmpty then none
    else
      match breakOnSep ['='] kv with
      | none => some (⟨kv⟩, "")
      | some (k, v) => some (⟨k⟩, ⟨v⟩))

/-- Model of the `new URL(s)` constructor.  `none` models the constructor
throwing `TypeError: Invalid URL`.  Simplification: a string parses iff
it contains `"://"` with a non-empty scheme before it and a non-empty
remainder; the query is split off at the first `"?"`. -/
def parseURL (s : String) : Option URLModel :=
  match breakOnSep [':', '/', '/'] s.data with
  | none => none
  | some (scheme, remainder) =>
    if scheme.isEmpty || remainder.isEmpty then none
    else
      match breakOnSep ['?'] remainder with
      | none => some ⟨⟨scheme⟩, ⟨remainder⟩, []⟩
      | some (base, query) => some ⟨⟨scheme⟩, ⟨base⟩, parseQuery query⟩

/-- Model of `url.searchParams.append(k, v)`. -/
def URLModel.appendParam (u : URLModel) (k v : String) : URLModel :=
  { u with params := u.params ++ [(k, v)] }

/-- Model of `url.searchParams.get(k)`: first value bound to `k`, else `null`. -/
def URLModel.getParam (u : URLModel) (k : String) : Option String :=
  (u.params.find? (fun p => p.1 == k)).map Prod.snd

/-- Model of `new URL(s).origin`: scheme plus host (the authority up to the first
`/`); `""` when the string does not parse. -/
def urlOrigin (s : String) : String :=
  match parseURL s with
  | none => ""
  | some u => u.scheme ++ "://" ++ ⟨u.rest.data.takeWhile (fun c => c != '/')⟩

/-- Embedding of `AuthUrlResponse` (`oauth-models`), with the URL kept in structured
form (the source returns `url.toString()`; serialization and re-parsing
round-trip, so the `URLModel` stands for the returned URL string). -/
structure AuthUrlResponse where
  url : URLModel
  state : String
deriving Repr, DecidableEq

namespace OAuth2Client

/-- Embedding of `validateConfig` of `src/src/oauth-client.ts` (lines 31–43): filters
the required fields (`clientId`, `redirectUri`, `authEndpoint`,
`tokenEndpoint` — this variant performs token exchange) for falsy values
and, when any is missing, produces the thrown error's message. -/
def validateConfig (c : OAuthConfig) : Option String :=
  let required := ["clientId", "redirectUri", "authEndpoint", "tokenEndpoint"]
  let missing := required.filter (fun f => !(truthy (some (c.field f))))
  if missing.isEmpty then none
  else some ("Missing required configuration: " ++ String.intercalate ", " missing)

/-- The constructor of `src/src/oauth-client.ts` (lines 20–29): validates
the config and re-wraps a validation error with the initialization
prefix. -/
def construct (c : OAuthConfig) : Except String OAuthConfig :=
  match validateConfig c with
  | none => .ok c
  | some m => .error ("OAuth2Client initialization failed: " ++ m)

/-- Embedding of `getAuthorizationUrl` (identical in both variants, lines 45–78 of
`src/src/oauth-client.ts` and 39–72 of `src/unnamed/part_000`).
Oracles: `state` is the freshly generated UUID; `storeFail = some msg`
models `sessionStorage.setItem` throwing with message `msg`.  Returns the
result (response or wrapped error message) together with the storage
after the call; note the state write happens before the
`new URL(authEndpoint)` construction. -/
def getAuthorizationUrl (config : OAuthConfig) (state : String)
    (storage : SessionStorage) (storeFail : Option String) :
    Except String AuthUrlResponse × SessionStorage :=
  match storeFail with
  | some msg =>
    (.error ("Failed to generate authorization URL: Failed to store state: " ++ msg),
      storage)
  | none =>
    let storage1 := storage.setItem STATE_KEY state
    match parseURL config.authEndpoint with
    | none => (.error "Failed to generate authorization URL: Invalid URL", storage1)
    | some url0 =>
      let url1 := url0.appendParam "client_id" config.clientId
      let url2 := url1.appendParam "redirect_uri" config.redirectUri
      let url3 := url2.appendParam "response_type" "code"
      let url4 := url3.appendParam "state" state
      let url5 := if truthy config.scope
        then url4.appendParam "scope" (config.scope.getD "")
        else url4
      (.ok ⟨url5, state⟩, storage1)

end OAuth2Client

/-- The callback-validation logic shared verbatim by both `handleCallback`
variants (lines 82–110 of `src/src/oauth-client.ts`, 76–104 of
`src/unnamed/part_000`): provider error first, then missing-parameter
check, then read-and-delete of the stored state, then the CSRF
comparison.  `getStateFail = some msg` models `sessionStorage.getItem`
throwing.  Returns the inner result (code or unwrapped error message) and
the storage after the call. -/
def validateCallback (params : CallbackParams) (storage : SessionStorage)
    (getStateFail : Option String) : Except String String × SessionStorage :=
  if truthy params.error then
    (.error ("Auth error: " ++
        (if truthy params.error_description then params.error_description.getD ""
         else params.error.getD "")), storage)
  else if !truthy params.code || !truthy params.state then
    (.error "Missing required callback parameters", storage)
  else
    match getStateFail with
    | some msg =>
      (.error ("Failed to retrieve state from storage: " ++ msg), storage)
    | none =>
      let savedState := storage.getItem STATE_KEY
      let storage1 := storage.removeItem STATE_KEY
      if !truthy savedState then
        (.error "No stored state found - the session might have expired", storage1)
      else if params.state.getD "" ≠ savedState.getD "" then
        (.error "State validation failed - possible CSRF attack", storage1)
      else
        (.ok (params.code.getD ""), storage1)

/-- The `Response` object a resolved `fetch` yields: its HTTP success
flag `ok` and the outcome of `.json()` (`Except.error` models the body
failing to parse, `Except.ok` the parsed body, coerced to the string that
is stored). -/
structure FetchResponse where
  ok : Bool
  json : Except String String
deriving Repr, DecidableEq

/-- Outcome oracle of the single `fetch` call of the token exchange. -/
inductive FetchOutcome where
  | reject (msg : String)
  | resolve (response : FetchResponse)
deriving Repr, DecidableEq

namespace OAuth2Client

/-- Embedding of `handleCallback` of `src/src/oauth-client.ts` (lines 80–125):
validates the callback, then POSTs the code to `config.tokenEndpoint`
(the round trip abstracted by the `fetchOutcome` oracle), parses the
response body with `.json()` and stores it under `TOKEN_KEY`.  The
source never inspects `response.ok`.  Every thrown error is re-wrapped
with the `Callback handling failed: ` prefix by the outer catch. -/
def handleCallback (params : CallbackParams) (storage : SessionStorage)
    (getStateFail : Option String) (fetchOutcome : FetchOutcome) :
    Except String String × SessionStorage :=
  match validateCallback params storage getStateFail with
  | (.error m, st) => (.error ("Callback handling failed: " ++ m), st)
  | (.ok _code, st) =>
    match fetchOutcome with
    | .reject msg => (.error ("Callback handling failed: " ++ msg), st)
    | .resolve resp =>
      match resp.json with
      | .error msg => (.error ("Callback handling failed: " ++ msg), st)
      | .ok token => (.ok token, st.setItem TOKEN_KEY token)

/-- Embedding of `logout` of `src/src/oauth-client.ts` (lines 201–214), restricted to
its storage effect: removes the token and state slots.  (The optional
navigation to `logoutEndpoint` and the `oauth2Logout` event do not touch
storage.) -/
def logout (storage : SessionStorage) : SessionStorage :=
  (storage.removeItem TOKEN_KEY).removeItem STATE_KEY

/-- Embedding of `isAuthenticated` of `src/src/oauth-client.ts` (lines 216–218):
`!!sessionStorage.getItem(TOKEN_KEY)`. -/
def isAuthenticated (storage : SessionStorage) : Bool :=
  truthy (storage.getItem TOKEN_KEY)

end OAuth2Client

namespace MsgClient

/-- Embedding of `validateConfig` of `src/unnamed/part_000` (lines 26–37): this
variant does no token exchange, so only `clientId`, `redirectUri` and
`authEndpoint` are required. -/
def validateConfig (c : OAuthConfig) : Option String :=
  let required := ["clientId", "redirectUri", "authEndpoint"]
  let missing := required.filter (fun f => !(truthy (some (c.field f))))
  if missing.isEmpty then none
  else some ("Missing required configuration: " ++ String.intercalate ", " missing)

/-- The constructor of `src/unnamed/part_000` (lines 15–24). -/
def construct (c : OAuthConfig) : Except String OAuthConfig :=
  match validateConfig c with
  | none => .ok c
  | some m => .error ("OAuth2Client initialization failed: " ++ m)

/-- Embedding of `handleCallback` of `src/unnamed/part_000` (lines 74–110): the same
validation, returning the authorization code directly (no token
exchange), with the outer `Callback handling failed: ` re-wrap. -/
def handleCallback (params : CallbackParams) (storage : SessionStorage)
    (getStateFail : Option String) : Except String String × SessionStorage :=
  match validateCallback params storage getStateFail with
  | (.ok code, st) => (.ok code, st)
  | (.error m, st) => (.error ("Callback handling failed: " ++ m), st)

end MsgClient

/-- Model of `url.searchParams.get(k) || undefined`: the `|| undefined` coercion
turns both `null` and the empty string into `undefined`. -/
def orUndefined : Option String → Option String
  | none => none
  | some s => if s == "" then none else some s

/-- Extraction of `CallbackParams` from the popup's navigated URL
(`src/src/oauth-client.ts` lines 176–182). -/
def extractCallbackParams (u : URLModel) : CallbackParams :=
  { code := orUndefined (u.getParam "code"),
    state := orUndefined (u.getParam "state"),
    error := orUndefined (u.getParam "error"),
    error_description := orUndefined (u.getParam "error_description") }

/-- What one polling iteration of `waitForCallback` observes about the
popup (the oracle for one `setInterval` tick):
* `closed` — `popup.closed` is `true`;
* `sameOrigin href` — the popup's location is readable and its origin
  equals the opener's origin, with `href` the popup's navigated URL;
* `differentOrigin` — the location is readable but its origin differs;
* `crossOriginDenied` — accessing the location throws the expected
  cross-origin `DOMException`;
* `unexpectedFailure` — probing throws something that is not a
  `DOMException`. -/
inductive PopupProbe where
  | closed
  | sameOrigin (href : URLModel)
  | differentOrigin
  | crossOriginDenied
  | unexpectedFailure
deriving Repr, DecidableEq

/-- The effect of one polling iteration: whether the interval is still
registered and the popup still held afterwards, and the resolution of the
promise (`none` = still waiting, `some none` = resolved with `null`,
`some (some p)` = resolved with callback params `p`).  `waitForCallback`
never rejects: its promise executor only ever calls `resolve`. -/
structure PollOutcome where
  intervalActive : Bool
  popupOpen : Bool
  resolved : Option (Option CallbackParams)
deriving Repr, DecidableEq

namespace OAuth2Client

/-- One iteration of the `setInterval` body of `waitForCallback`
(`src/src/oauth-client.ts` lines 159–197).  A closed popup clears the
interval and resolves `null`; a same-origin navigation clears the
interval, closes the popup and resolves the extracted params; a
cross-origin `DOMException` (and a still-foreign origin) leaves the wait
untouched; any other exception clears the interval, closes the popup and
resolves `null`. -/
def waitForCallbackStep (probe : PopupProbe) : PollOutcome :=
  match probe with
  | .closed => ⟨false, false, some none⟩
  | .sameOrigin href => ⟨false, false, some (some (extractCallbackParams href))⟩
  | .differentOrigin => ⟨true, true, none⟩
  | .crossOriginDenied => ⟨true, true, none⟩
  | .unexpectedFailure => ⟨false, false, some none⟩

end OAuth2Client

/-- The resources and settlement of the promise returned by
`authenticateWithPopup` of `src/unnamed/part_000`: whether the
`popupCheck` interval and the `message` listener are still registered,
and how the promise has settled (`none` = pending; `some (.ok code)` =
resolved; `some (.error m)` = rejected with message `m`). -/
structure MsgWaitState where
  intervalActive : Bool
  listenerActive : Bool
  settled : Option (Except String String)
deriving Repr, DecidableEq

/-- The wait state right after `authenticateWithPopup` registers its
interval and listener (lines 130 and 160 of `src/unnamed/part_000`). -/
def MsgWaitState.initial : MsgWaitState := ⟨true, true, none⟩

/-- Settling a promise: the first `resolve`/`reject` wins, later calls
are no-ops. -/
def MsgWaitState.settle (s : MsgWaitState) (r : Except String String) : MsgWaitState :=
  match s.settled with
  | some _ => s
  | none => { s with settled := some r }

/-- An event delivered to the waiting `authenticateWithPopup` promise of
`src/unnamed/part_000`: one `popupCheck` interval tick (carrying whether
`popup.closed` is observed `true`), or one cross-document `message` event
with its `origin`, its `data.type` tag and its `data.params`. -/
inductive MsgEvent where
  | tick (popupClosed : Bool)
  | message (origin : String) (dataType : Option String) (params : CallbackParams)
deriving Repr, DecidableEq

namespace MsgClient

/-- One event step of the wait inside `authenticateWithPopup`
(`src/unnamed/part_000` lines 129–161).  The interval tick (lines
130–135) on a closed popup clears the interval and rejects with
`Authentication cancelled` — it does not remove the `message` listener.
The message handler (lines 137–158) ignores events whose origin differs
from the redirect URI's origin or whose payload is not tagged
`oauth2-callback`; on a matching message it removes the listener, clears
the interval, and settles the promise with the result of
`handleCallback` on the message's params.  A cleared interval no longer
ticks and a removed listener no longer receives, hence the guards on the
state's flags. -/
def authWaitStep (config : OAuthConfig) (storage : SessionStorage)
    (s : MsgWaitState) (e : MsgEvent) : MsgWaitState × SessionStorage :=
  match e with
  | .tick popupClosed =>
    if s.intervalActive && popupClosed then
      (({ s with intervalActive := false }).settle (.error "Authentication cancelled"),
        storage)
    else (s, storage)
  | .message origin dataType params =>
    if !s.listenerActive then (s, storage)
    else if urlOrigin config.redirectUri != origin then (s, storage)
    else if dataType == some "oauth2-callback" then
      let result := handleCallback params storage none
      (({ s with listenerActive := false, intervalActive := false }).settle result.1,
        result.2)
    else (s, storage)

end MsgClient

/-- A concrete valid configuration (the shape used by the repository's
tests), for concrete evaluations. -/
def testConfig : OAuthConfig :=
  { clientId := "test-client-id",
    redirectUri := "http://localhost/callback",
    authEndpoint := "http://auth-server/auth",
    scope := some "read write",
    tokenEndpoint := "http://auth-server/token" }

theorem SessionStorage.getItem_setItem_same (s : SessionStorage) (k v : String) :
    (s.setItem k v).getItem k = some v := by
  simp [SessionStorage.getItem, SessionStorage.setItem, List.find?]

theorem find?_key_filter_ne (l : List (String × String)) (k k' : String)
    (h : k ≠ k') :
    (l.filter (fun p => p.1 != k)).find? (fun p => p.1 == k')
      = l.find? (fun p => p.1 == k') := by
  induction l with
  | nil => rfl
  | cons p rest ih =>
    by_cases hp : p.1 = k
    · rw [List.filter_cons_of_neg (by simp [hp]),
        List.find?_cons_of_neg _ (by simp [hp, h]), ih]
    · rw [List.filter_cons_of_pos (by simp [hp])]
      by_cases hp' : p.1 = k'
      · rw [List.find?_cons_of_pos _ (by simp [hp']),
          List.find?_cons_of_pos _ (by simp [hp'])]
      · rw [List.find?_cons_of_neg _ (by simp [hp']),
          List.find?_cons_of_neg _ (by simp [hp']), ih]

theorem find?_key_filter_same (l : List (String × String)) (k : String) :
    (l.filter (fun p => p.1 != k)).find? (fun p => p.1 == k) = none := by
  induction l with
  | nil => rfl
  | cons p rest ih =>
    by_cases hp : p.1 = k
    · rw [List.filter_cons_of_neg (by simp [hp])]; exact ih
    · rw [List.filter_cons_of_pos (by simp [hp]),
        List.find?_cons_of_neg _ (by simp [hp])]; exact ih

theorem SessionStorage.getItem_setItem_ne (s : SessionStorage) (k k' v : String)
    (h : k ≠ k') : (s.setItem k v).getItem k' = s.getItem k' := by
  simp only [SessionStorage.getItem, SessionStorage.setItem]
  rw [List.find?_cons_of_neg _ (by simp [h]), find?_key_filter_ne _ _ _ h]

theorem SessionStorage.getItem_removeItem_same (s : SessionStorage) (k : String) :
    (s.removeItem k).getItem k = none := by
  simp only [SessionStorage.getItem, SessionStorage.removeItem]
  rw [find?_key_filter_same]
  rfl

theorem SessionStorage.getItem_removeItem_ne (s : SessionStorage) (k k' : String)
    (h : k ≠ k') : (s.removeItem k).getItem k' = s.getItem k' := by
  simp only [SessionStorage.getItem, SessionStorage.removeItem]
  rw [find?_key_filter_ne _ _ _ h]

theorem validateCallback_snd (params : CallbackParams) (storage : SessionStorage)
    (he : truthy params.error = false) (hc : truthy params.code = true)
    (hs : truthy params.state = true) :
    (validateCallback params storage none).2 = storage.removeItem STATE_KEY := by
  simp only [validateCallback, he, hc, hs]
  simp only [Bool.not_true, Bool.or_self, Bool.false_eq_true, if_false]
  split
  · rfl
  · split <;> rfl

theorem validateCallback_csrf (params : CallbackParams) (storage : SessionStorage)
    (saved : String) (he : truthy params.error = false) (hc : truthy params.code = true)
    (hs : truthy params.state = true) (hsv : storage.getItem STATE_KEY = some saved)
    (hne : saved ≠ "") (hdiff : params.state.getD "" ≠ saved) :
    validateCallback params storage none
      = (.error "State validation failed - possible CSRF attack",
          storage.removeItem STATE_KEY) := by
  have hsaved : truthy (some saved) = true := by simp [truthy, hne]
  simp [validateCallback, he, hc, hs, hsv, hsaved, hdiff]

theorem validateCallback_expired (params : CallbackParams) (storage : SessionStorage)
    (he : truthy params.error = false) (hc : truthy params.code = true)
    (hs : truthy params.state = true)
    (hempty : truthy (storage.getItem STATE_KEY) = false) :
    validateCallback params storage none
      = (.error "No stored state found - the session might have expired",
          storage.removeItem STATE_KEY) := by
  simp [validateCallback, he, hc, hs, hempty]

theorem OAuth2Client.handleCallback_of_error (params : CallbackParams)
    (storage st : SessionStorage) (g : Option String) (f : FetchOutcome) (m : String)
    (h : validateCallback params storage g = (.error m, st)) :
    OAuth2Client.handleCallback params storage g f
      = (.error ("Callback handling failed: " ++ m), st) := by
  simp [OAuth2Client.handleCallback, h]

theorem msgHandleCallback_of_error (params : CallbackParams)
    (storage st : SessionStorage) (g : Option String) (m : String)
    (h : validateCallback params storage g = (.error m, st)) :
    MsgClient.handleCallback params storage g
      = (.error ("Callback handling failed: " ++ m), st) := by
  simp [MsgClient.handleCallback, h]

theorem OAuth2Client.handleCallback_consumes (params : CallbackParams)
    (storage : SessionStorage) (f : FetchOutcome)
    (he : truthy params.error = false) (hc : truthy params.code = true)
    (hs : truthy params.state = true) :
    ((OAuth2Client.handleCallback params storage none f).2).getItem STATE_KEY = none := by
  have h2 := validateCallback_snd params storage he hc hs
  rcases hv : validateCallback params storage none with ⟨r, st⟩
  rw [hv] at h2
  have hst : st = storage.removeItem STATE_KEY := h2
  subst hst
  cases r with
  | error m =>
    simp only [OAuth2Client.handleCallback, hv]
    exact SessionStorage.getItem_removeItem_same storage STATE_KEY
  | ok code =>
    cases f with
    | reject msg =>
      simp only [OAuth2Client.handleCallback, hv]
      exact SessionStorage.getItem_removeItem_same storage STATE_KEY
    | resolve resp =>
      cases hj : resp.json with
      | error msg =>
        simp only [OAuth2Client.handleCallback, hv, hj]
        exact SessionStorage.getItem_removeItem_same storage STATE_KEY
      | ok token =>
        have hne2 : TOKEN_KEY ≠ STATE_KEY := by decide
        simp only [OAuth2Client.handleCallback, hv, hj]
        rw [SessionStorage.getItem_setItem_ne _ _ _ _ hne2]
        exact SessionStorage.getItem_removeItem_same storage STATE_KEY

theorem msgHandleCallback_consumes (params : CallbackParams)
    (storage : SessionStorage)
    (he : truthy params.error = false) (hc : truthy params.code = true)
    (hs : truthy params.state = true) :
    ((MsgClient.handleCallback params storage none).2).getItem STATE_KEY = none := by
  have h2 := validateCallback_snd params storage he hc hs
  rcases hv : validateCallback params storage none with ⟨r, st⟩
  rw [hv] at h2
  have hst : st = storage.removeItem STATE_KEY := h2
  subst hst
  cases r <;> simp only [MsgClient.handleCallback, hv] <;>
    exact SessionStorage.getItem_removeItem_same storage STATE_KEY

/-- C1: for every callback params value whose `state` field is present
together with a `code` field (and no provider `error`, which by the
ordered checks would take precedence), and every non-empty stored state
value distinct from that `state` field, `handleCallback` of both variants
fails with the CSRF-mismatch error
`State validation failed - possible CSRF attack` and never returns
successfully — for every token-exchange outcome `f`. -/
theorem csrfMismatch_of_distinct_states (params : CallbackParams)
    (storage : SessionStorage) (saved : String) (f : FetchOutcome)
    (he : truthy params.error = false) (hc : truthy params.code = true)
    (hs : truthy params.state = true)
    (hsv : storage.getItem STATE_KEY = some saved) (hne : saved ≠ "")
    (hdiff : params.state.getD "" ≠ saved) :
    OAuth2Client.handleCallback params storage none f
      = (.error "Callback handling failed: State validation failed - possible CSRF attack",
          storage.removeItem STATE_KEY)
    ∧ MsgClient.handleCallback params storage none
      = (.error "Callback handling failed: State validation failed - possible CSRF attack",
          storage.removeItem STATE_KEY) := by
  have hv := validateCallback_csrf params storage saved he hc hs hsv hne hdiff
  exact ⟨OAuth2Client.handleCallback_of_error _ _ _ _ _ _ hv,
    msgHandleCallback_of_error _ _ _ _ _ hv⟩

/-- C1 witness: with stored state `uuid-1`, the callback
`{code: "test-code", state: "invalid-state"}` fails the CSRF check in
both variants. -/
theorem csrfMismatch_of_distinct_states_witness :
    OAuth2Client.handleCallback ⟨some "test-code", some "invalid-state", none, none⟩
        (SessionStorage.empty.setItem STATE_KEY "uuid-1") none (.reject "netfail")
      = (.error "Callback handling failed: State validation failed - possible CSRF attack",
          (SessionStorage.empty.setItem STATE_KEY "uuid-1").removeItem STATE_KEY)
    ∧ MsgClient.handleCallback ⟨some "test-code", some "invalid-state", none, none⟩
        (SessionStorage.empty.setItem STATE_KEY "uuid-1") none
      = (.error "Callback handling failed: State validation failed - possible CSRF attack",
          (SessionStorage.empty.setItem STATE_KEY "uuid-1").removeItem STATE_KEY) :=
  csrfMismatch_of_distinct_states _ _ "uuid-1" _ (by decide) (by decide) (by decide)
    (by decide) (by decide) (by decide)

/-- C2: once a `handleCallback` call has consumed the stored state (its
params carried truthy `code` and `state` and no `error`, so the
read-and-delete step ran, whether the comparison then succeeded or
failed), every subsequent `handleCallback` call on the resulting storage
with params again carrying `code` and `state` fails with
`No stored state found - the session might have expired`, in both
variants and for all token-exchange outcomes. -/
theorem no_replay_after_state_consumed (p1 p2 : CallbackParams)
    (storage : SessionStorage) (f1 f2 : FetchOutcome)
    (h1e : truthy p1.error = false) (h1c : truthy p1.code = true)
    (h1s : truthy p1.state = true)
    (h2e : truthy p2.error = false) (h2c : truthy p2.code = true)
    (h2s : truthy p2.state = true) :
    (OAuth2Client.handleCallback p2
        (OAuth2Client.handleCallback p1 storage none f1).2 none f2).1
      = .error "Callback handling failed: No stored state found - the session might have expired"
    ∧ (MsgClient.handleCallback p2
        (MsgClient.handleCallback p1 storage none).2 none).1
      = .error "Callback handling failed: No stored state found - the session might have expired" := by
  constructor
  · have hnone := OAuth2Client.handleCallback_consumes p1 storage f1 h1e h1c h1s
    have hv := validateCallback_expired p2 _ h2e h2c h2s (by rw [hnone]; rfl)
    rw [OAuth2Client.handleCallback_of_error _ _ _ _ f2 _ hv]
    rfl
  · have hnone := msgHandleCallback_consumes p1 storage h1e h1c h1s
    have hv := validateCallback_expired p2 _ h2e h2c h2s (by rw [hnone]; rfl)
    rw [msgHandleCallback_of_error _ _ _ _ _ hv]
    rfl


/-- C2 witness: a first valid callback consumes the stored state; an
identical replay fails with the expired-state error in both variants. -/
theorem no_replay_after_state_consumed_witness :
    (OAuth2Client.handleCallback ⟨some "c1", some "s", none, none⟩
        (OAuth2Client.handleCallback ⟨some "c1", some "s", none, none⟩
          (SessionStorage.empty.setItem STATE_KEY "s") none
          (.resolve ⟨true, .ok "tok"⟩)).2 none (.resolve ⟨true, .ok "tok"⟩)).1
      = .error "Callback handling failed: No stored state found - the session might have expired"
    ∧ (MsgClient.handleCallback ⟨some "c1", some "s", none, none⟩
        (MsgClient.handleCallback ⟨some "c1", some "s", none, none⟩
          (SessionStorage.empty.setItem STATE_KEY "s") none).2 none).1
      = .error "Callback handling failed: No stored state found - the session might have expired" :=
  no_replay_after_state_consumed _ _ (SessionStorage.empty.setItem STATE_KEY "s") _ _
    (by decide) (by decide) (by decide) (by decide) (by decide) (by decide)

/-- C3: a callback params value with a truthy `error` field fails with
the provider error `Auth error: ...` carrying `error_description` when
that is truthy, otherwise `error` — regardless of `code`/`state` presence
and of the storage-failure and fetch oracles — and the storage is
returned unchanged (no missing-parameter check, no state consumption),
in both variants. -/
theorem providerError_takes_precedence (params : CallbackParams)
    (storage : SessionStorage) (g : Option String) (f : FetchOutcome)
    (he : truthy params.error = true) :
    OAuth2Client.handleCallback params storage g f
      = (.error ("Callback handling failed: Auth error: " ++
          (if truthy params.error_description then params.error_description.getD ""
           else params.error.getD "")), storage)
    ∧ MsgClient.handleCallback params storage g
      = (.error ("Callback handling failed: Auth error: " ++
          (if truthy params.error_description then params.error_description.getD ""
           else params.error.getD "")), storage) := by
  have hv : validateCallback params storage g
      = (.error ("Auth error: " ++
          (if truthy params.error_description then params.error_description.getD ""
           else params.error.getD "")), storage) := by
    simp [validateCallback, he]
  exact ⟨OAuth2Client.handleCallback_of_error _ _ _ _ _ _ hv,
    msgHandleCallback_of_error _ _ _ _ _ hv⟩

/-- C3 witness: the callback
`{code: "c", state: "s", error: "access_denied",
error_description: "User denied access"}` fails with the provider error
carrying the description, with the storage untouched, in both variants. -/
theorem providerError_takes_precedence_witness :
    OAuth2Client.handleCallback
        ⟨some "c", some "s", some "access_denied", some "User denied access"⟩
        (SessionStorage.empty.setItem STATE_KEY "s") none (.reject "netfail")
      = (.error "Callback handling failed: Auth error: User denied access",
          SessionStorage.empty.setItem STATE_KEY "s")
    ∧ MsgClient.handleCallback
        ⟨some "c", some "s", some "access_denied", some "User denied access"⟩
        (SessionStorage.empty.setItem STATE_KEY "s") none
      = (.error "Callback handling failed: Auth error: User denied access",
          SessionStorage.empty.setItem STATE_KEY "s") := by
  simpa using providerError_takes_precedence
    ⟨some "c", some "s", some "access_denied", some "User denied access"⟩
    (SessionStorage.empty.setItem STATE_KEY "s") none (.reject "netfail") (by decide)

theorem truthy_some_ne (s : String) (h : s ≠ "") : truthy (some s) = true := by
  simp [truthy, h]

/-- C4 counterexample: in the message-based variant
(`authenticateWithPopup` of `src/unnamed/part_000`), the interval tick
that observes the popup closed by the user settles the wait by REJECTING
with the error `Authentication cancelled` — not by resolving with an
empty result — refuting the claim that in every detection strategy user
cancellation resolves without an error. -/
theorem popup_cancel_rejects_in_message_variant :
    ((MsgClient.authWaitStep testConfig SessionStorage.empty MsgWaitState.initial
        (MsgEvent.tick true)).1).settled
      = some (Except.error "Authentication cancelled") := rfl

/-- C4 (amended): user cancellation is strategy-dependent.  In the
polling strategy (`waitForCallback` of `src/src/oauth-client.ts`) a
closed popup clears the interval and resolves the wait with `null`,
never an error; in the message-based variant
(`src/unnamed/part_000`) the closed-popup tick rejects the promise with
`Authentication cancelled`. -/
theorem popup_cancel_behavior_per_variant (config : OAuthConfig)
    (storage : SessionStorage) :
    OAuth2Client.waitForCallbackStep PopupProbe.closed
        = ⟨false, false, some none⟩
    ∧ (MsgClient.authWaitStep config storage MsgWaitState.initial (MsgEvent.tick true)).1
        = ⟨false, true, some (Except.error "Authentication cancelled")⟩ :=
  ⟨rfl, rfl⟩

/-- C5 (code-bug exhibit): `handleCallback` of `src/src/oauth-client.ts`
never inspects `response.ok`.  At the failing input — a valid callback
whose token endpoint answers with a NON-SUCCESS HTTP status
(`ok := false`) but a parseable body `"tok"` — the exchange SUCCEEDS and
the token slot IS written, where the claim demands a
`TokenExchangeFailed` failure with the token slot left unwritten. -/
theorem token_exchange_ignores_http_status :
    OAuth2Client.handleCallback ⟨some "abc", some "s", none, none⟩
        (SessionStorage.empty.setItem STATE_KEY "s") none
        (.resolve ⟨false, .ok "tok"⟩)
      = (.ok "tok", ⟨[("oauth_token", "tok")]⟩)
    ∧ (SessionStorage.empty.setItem STATE_KEY "s").getItem TOKEN_KEY = none :=
  ⟨rfl, rfl⟩

/-- C6: with the vault write succeeding, `getAuthorizationUrl` returns a
response whose state is retrievable from the state slot immediately
afterwards and whose URL carries exactly the query parameters
`client_id`, `redirect_uri`, `response_type=code`, `state`, plus `scope`
iff a (truthy) scope is configured; with the vault write failing, the
call fails with the storage error and no URL is returned. -/
theorem getAuthorizationUrl_spec (config : OAuthConfig) (state : String)
    (storage : SessionStorage) (u : URLModel)
    (hu : parseURL config.authEndpoint = some u) (hq : u.params = []) :
    (OAuth2Client.getAuthorizationUrl config state storage none).1
      = .ok ⟨⟨u.scheme, u.rest,
          [("client_id", config.clientId), ("redirect_uri", config.redirectUri),
           ("response_type", "code"), ("state", state)]
          ++ (if truthy config.scope then [("scope", config.scope.getD "")] else [])⟩,
          state⟩
    ∧ ((OAuth2Client.getAuthorizationUrl config state storage none).2).getItem STATE_KEY
        = some state
    ∧ ∀ msg, OAuth2Client.getAuthorizationUrl config state storage (some msg)
        = (.error ("Failed to generate authorization URL: Failed to store state: " ++ msg),
            storage) := by
  refine ⟨?_, ?_, fun msg => rfl⟩
  · by_cases hsc : truthy config.scope <;>
      simp [OAuth2Client.getAuthorizationUrl, hu, hq, URLModel.appendParam, hsc]
  · simp [OAuth2Client.getAuthorizationUrl, hu,
      SessionStorage.getItem_setItem_same]

/-- C6 witness: the test configuration yields exactly the five expected
query parameters (scope configured), the stored state, and the storage
failure behaviour. -/
theorem getAuthorizationUrl_spec_witness :
    (OAuth2Client.getAuthorizationUrl testConfig "uuid-1" SessionStorage.empty none).1
      = .ok ⟨⟨"http", "auth-server/auth",
          [("client_id", "test-client-id"),
           ("redirect_uri", "http://localhost/callback"),
           ("response_type", "code"), ("state", "uuid-1"),
           ("scope", "read write")]⟩, "uuid-1"⟩
    ∧ ((OAuth2Client.getAuthorizationUrl testConfig "uuid-1"
          SessionStorage.empty none).2).getItem STATE_KEY = some "uuid-1"
    ∧ OAuth2Client.getAuthorizationUrl testConfig "uuid-1" SessionStorage.empty
          (some "Storage is not available")
        = (.error "Failed to generate authorization URL: Failed to store state: Storage is not available",
            SessionStorage.empty) := by
  have h := getAuthorizationUrl_spec testConfig "uuid-1" SessionStorage.empty
    ⟨"http", "auth-server/auth", []⟩ (by rfl) rfl
  refine ⟨?_, h.2.1, ?_⟩
  · rw [h.1]
    rfl
  · rw [h.2.2 "Storage is not available"]
    rfl

/-- C7: construction succeeds for every config whose `clientId`,
`redirectUri` and `authEndpoint` are non-empty — in the no-exchange
variant (`src/unnamed/part_000`) these three alone suffice, while the
token-exchange variant (`src/src/oauth-client.ts`) additionally requires
`tokenEndpoint` — and for every config missing exactly one required
field, construction fails with an error naming exactly that field. -/
theorem config_validation (c : OAuthConfig) :
    (c.clientId ≠ "" → c.redirectUri ≠ "" → c.authEndpoint ≠ "" →
      MsgClient.construct c = .ok c)
    ∧ (c.clientId ≠ "" → c.redirectUri ≠ "" → c.authEndpoint ≠ "" →
        c.tokenEndpoint ≠ "" → OAuth2Client.construct c = .ok c)
    ∧ (c.clientId = "" → c.redirectUri ≠ "" → c.authEndpoint ≠ "" →
        c.tokenEndpoint ≠ "" →
      OAuth2Client.construct c
          = .error "OAuth2Client initialization failed: Missing required configuration: clientId"
        ∧ MsgClient.construct c
          = .error "OAuth2Client initialization failed: Missing required configuration: clientId")
    ∧ (c.redirectUri = "" → c.clientId ≠ "" → c.authEndpoint ≠ "" →
        c.tokenEndpoint ≠ "" →
      OAuth2Client.construct c
          = .error "OAuth2Client initialization failed: Missing required configuration: redirectUri"
        ∧ MsgClient.construct c
          = .error "OAuth2Client initialization failed: Missing required configuration: redirectUri")
    ∧ (c.authEndpoint = "" → c.clientId ≠ "" → c.redirectUri ≠ "" →
        c.tokenEndpoint ≠ "" →
      OAuth2Client.construct c
          = .error "OAuth2Client initialization failed: Missing required configuration: authEndpoint"
        ∧ MsgClient.construct c
          = .error "OAuth2Client initialization failed: Missing required configuration: authEndpoint")
    ∧ (c.tokenEndpoint = "" → c.clientId ≠ "" → c.redirectUri ≠ "" →
        c.authEndpoint ≠ "" →
      OAuth2Client.construct c
          = .error "OAuth2Client initialization failed: Missing required configuration: tokenEndpoint"
        ∧ MsgClient.construct c = .ok c) := by
  refine ⟨?_, ?_, ?_, ?_, ?_, ?_⟩
  · intro h1 h2 h3
    simp [MsgClient.construct, MsgClient.validateConfig, OAuthConfig.field,
      truthy_some_ne _ h1, truthy_some_ne _ h2, truthy_some_ne _ h3]
  · intro h1 h2 h3 h4
    simp [OAuth2Client.construct, OAuth2Client.validateConfig, OAuthConfig.field,
      truthy_some_ne _ h1, truthy_some_ne _ h2, truthy_some_ne _ h3,
      truthy_some_ne _ h4]
  · intro h1 h2 h3 h4
    have t1 : truthy (some c.clientId) = false := by rw [h1]; rfl
    constructor
    · simp [OAuth2Client.construct, OAuth2Client.validateConfig, OAuthConfig.field,
        t1, truthy_some_ne _ h2, truthy_some_ne _ h3, truthy_some_ne _ h4,
        String.intercalate]
      rfl
    · simp [MsgClient.construct, MsgClient.validateConfig, OAuthConfig.field,
        t1, truthy_some_ne _ h2, truthy_some_ne _ h3, String.intercalate]
      rfl
  · intro h1 h2 h3 h4
    have t1 : truthy (some c.redirectUri) = false := by rw [h1]; rfl
    constructor
    · simp [OAuth2Client.construct, OAuth2Client.validateConfig, OAuthConfig.field,
        t1, truthy_some_ne _ h2, truthy_some_ne _ h3, truthy_some_ne _ h4,
        String.intercalate]
      rfl
    · simp [MsgClient.construct, MsgClient.validateConfig, OAuthConfig.field,
        t1, truthy_some_ne _ h2, truthy_some_ne _ h3, String.intercalate]
      rfl
  · intro h1 h2 h3 h4
    have t1 : truthy (some c.authEndpoint) = false := by rw [h1]; rfl
    constructor
    · simp [OAuth2Client.construct, OAuth2Client.validateConfig, OAuthConfig.field,
        t1, truthy_some_ne _ h2, truthy_some_ne _ h3, truthy_some_ne _ h4,
        String.intercalate]
      rfl
    · simp [MsgClient.construct, MsgClient.validateConfig, OAuthConfig.field,
        t1, truthy_some_ne _ h2, truthy_some_ne _ h3, String.intercalate]
      rfl
  · intro h1 h2 h3 h4
    have t1 : truthy (some c.tokenEndpoint) = false := by rw [h1]; rfl
    constructor
    · simp [OAuth2Client.construct, OAuth2Client.validateConfig, OAuthConfig.field,
        t1, truthy_some_ne _ h2, truthy_some_ne _ h3, truthy_some_ne _ h4,
        String.intercalate]
      rfl
    · simp [MsgClient.construct, MsgClient.validateConfig, OAuthConfig.field,
        truthy_some_ne _ h2, truthy_some_ne _ h3, truthy_some_ne _ h4]

/-- C7 witness: a fully valid config constructs in both variants; a
config with only `clientId` missing fails naming `clientId`; a config
with only `tokenEndpoint` missing fails in the token-exchange variant
naming `tokenEndpoint` yet constructs in the no-exchange variant. -/
theorem config_validation_witness :
    MsgClient.construct testConfig = .ok testConfig
    ∧ OAuth2Client.construct testConfig = .ok testConfig
    ∧ OAuth2Client.construct ⟨"", "r", "a", none, "t", none⟩
        = .error "OAuth2Client initialization failed: Missing required configuration: clientId"
    ∧ OAuth2Client.construct ⟨"c", "r", "a", none, "", none⟩
        = .error "OAuth2Client initialization failed: Missing required configuration: tokenEndpoint"
    ∧ MsgClient.construct ⟨"c", "r", "a", none, "", none⟩
        = .ok ⟨"c", "r", "a", none, "", none⟩ :=
  ⟨(config_validation testConfig).1 (by decide) (by decide) (by decide),
   (config_validation testConfig).2.1 (by decide) (by decide) (by decide) (by decide),
   ((config_validation ⟨"", "r", "a", none, "t", none⟩).2.2.1 rfl (by decide)
      (by decide) (by decide)).1,
   ((config_validation ⟨"c", "r", "a", none, "", none⟩).2.2.2.2.2 rfl (by decide)
      (by decide) (by decide)).1,
   ((config_validation ⟨"c", "r", "a", none, "", none⟩).2.2.2.2.2 rfl (by decide)
      (by decide) (by decide)).2⟩

/-- C8 (code-bug exhibit): in the message-based variant, the terminal
user-cancellation transition (interval tick observing the popup closed)
clears the `popupCheck` interval (`intervalActive = false`) and settles
the promise, but leaves the `message` listener registered
(`listenerActive = true`) — the handler never calls
`removeEventListener` on that path, so a dangling message listener
remains after the popup closes. -/
theorem message_listener_leak_on_cancel :
    MsgClient.authWaitStep testConfig SessionStorage.empty MsgWaitState.initial
        (MsgEvent.tick true)
      = (⟨false, true, some (Except.error "Authentication cancelled")⟩,
          SessionStorage.empty) := rfl

/-- C9: when the vault write succeeds but `new URL(config.authEndpoint)`
then throws (the endpoint is not a parseable absolute URL),
`getAuthorizationUrl` fails — yet the state slot has already been
overwritten with the freshly generated state; the write is not rolled
back. -/
theorem state_write_persists_on_url_failure (config : OAuthConfig) (state : String)
    (storage : SessionStorage) (hbad : parseURL config.authEndpoint = none) :
    (OAuth2Client.getAuthorizationUrl config state storage none).1
        = .error "Failed to generate authorization URL: Invalid URL"
    ∧ ((OAuth2Client.getAuthorizationUrl config state storage none).2).getItem STATE_KEY
        = some state := by
  constructor
  · simp [OAuth2Client.getAuthorizationUrl, hbad]
  · simp [OAuth2Client.getAuthorizationUrl, hbad,
      SessionStorage.getItem_setItem_same]

/-- C9 witness: with `authEndpoint = "not a url"` the call fails and the
state slot now holds the fresh state `uuid-2`, replacing the prior value
`old`. -/
theorem state_write_persists_on_url_failure_witness :
    (OAuth2Client.getAuthorizationUrl ⟨"c", "r", "not a url", none, "t", none⟩
        "uuid-2" (SessionStorage.empty.setItem STATE_KEY "old") none).1
      = .error "Failed to generate authorization URL: Invalid URL"
    ∧ ((OAuth2Client.getAuthorizationUrl ⟨"c", "r", "not a url", none, "t", none⟩
        "uuid-2" (SessionStorage.empty.setItem STATE_KEY "old") none).2).getItem STATE_KEY
      = some "uuid-2" :=
  state_write_persists_on_url_failure _ _ _ rfl

/-- C10: `isAuthenticated` is true exactly when the token slot holds a
non-empty value; in particular it is false after `logout` (which removes
the token slot) and on a fresh empty storage. -/
theorem isAuthenticated_iff_token_nonempty (storage : SessionStorage) :
    (OAuth2Client.isAuthenticated storage = true ↔
      ∃ v, storage.getItem TOKEN_KEY = some v ∧ v ≠ "")
    ∧ OAuth2Client.isAuthenticated (OAuth2Client.logout storage) = false
    ∧ OAuth2Client.isAuthenticated SessionStorage.empty = false := by
  refine ⟨?_, ?_, rfl⟩
  · unfold OAuth2Client.isAuthenticated
    cases h : storage.getItem TOKEN_KEY with
    | none => simp [h, truthy]
    | some v => simp [h, truthy]
  · unfold OAuth2Client.isAuthenticated OAuth2Client.logout
    rw [SessionStorage.getItem_removeItem_ne _ _ _ (by decide),
      SessionStorage.getItem_removeItem_same]
    rfl
